import Mathlib

/-!
Verification of the webhook subscription system.

This file shallowly embeds the core of the repository — the webhook
signature guard (src/common/guards/webhook-signature.guard.ts), the
webhook processing service (src/webhooks/webhooks.service.ts), the
subscriptions service (src/subscriptions/subscriptions.service.ts), the
payments service (src/payments/payments.service.ts) and the webhook
controller (src/webhooks/webhooks.controller.ts) — and proves or refutes
the frozen specification claims about it.

Modelling conventions:
- Timestamps are epoch milliseconds as Nat (the code uses Date.now() and
  Date arithmetic in milliseconds).
- The Prisma store is a record of lists of rows; each create operation
  enforces the schema's uniqueness constraints by raising a P2002-style
  uniqueViolation error, and the store's interactive transaction reverts
  every write of the callback when the callback throws (the documented
  Prisma semantics the code relies on).
- Machine integers do not overflow in the modelled ranges except in the
  SHA-256 core, where 32-bit wrap-around is modelled by explicit
  reduction modulo 2^32 on Nat.
- Thrown JS exceptions are modelled with Except.
-/

namespace WebhookSpec

/-! ## SHA-256 and HMAC-SHA256 (crypto.createHmac("sha256", ...)) -/

/-- Reduction modulo 2^32, the wrap-around of 32-bit words. -/
def u32 (n : Nat) : Nat := n % 4294967296

/-- Right rotation of a 32-bit word by n bits. -/
def rotr32 (n x : Nat) : Nat := u32 ((x >>> n) ||| (x <<< (32 - n)))

/-- SHA-256 Ch(x,y,z). -/
def shaCh (x y z : Nat) : Nat := (x &&& y) ^^^ ((x ^^^ 4294967295) &&& z)

/-- SHA-256 Maj(x,y,z). -/
def shaMaj (x y z : Nat) : Nat := (x &&& y) ^^^ (x &&& z) ^^^ (y &&& z)

/-- SHA-256 big sigma 0. -/
def bsig0 (x : Nat) : Nat := rotr32 2 x ^^^ rotr32 13 x ^^^ rotr32 22 x

/-- SHA-256 big sigma 1. -/
def bsig1 (x : Nat) : Nat := rotr32 6 x ^^^ rotr32 11 x ^^^ rotr32 25 x

/-- SHA-256 small sigma 0. -/
def ssig0 (x : Nat) : Nat := rotr32 7 x ^^^ rotr32 18 x ^^^ (x >>> 3)

/-- SHA-256 small sigma 1. -/
def ssig1 (x : Nat) : Nat := rotr32 17 x ^^^ rotr32 19 x ^^^ (x >>> 10)

/-- The 64 SHA-256 round constants. -/
def shaK : List Nat :=
  [1116352408, 1899447441, 3049323471, 3921009573, 961987163, 1508970993,
   2453635748, 2870763221, 3624381080, 310598401, 607225278, 1426881987,
   1925078388, 2162078206, 2614888103, 3248222580, 3835390401, 4022224774,
   264347078, 604807628, 770255983, 1249150122, 1555081692, 1996064986,
   2554220882, 2821834349, 2952996808, 3210313671, 3336571891, 3584528711,
   113926993, 338241895, 666307205, 773529912, 1294757372, 1396182291,
   1695183700, 1986661051, 2177026350, 2456956037, 2730485921, 2820302411,
   3259730800, 3345764771, 3516065817, 3600352804, 4094571909, 275423344,
   430227734, 506948616, 659060556, 883997877, 958139571, 1322822218,
   1537002063, 1747873779, 1955562222, 2024104815, 2227730452, 2361852424,
   2428436474, 2756734187, 3204031479, 3329325298]

/-- The SHA-256 initial hash state. -/
def shaH0 : List Nat :=
  [1779033703, 3144134277, 1013904242, 2773480762, 1359893119, 2600822924, 528734635, 1541459225]

/-- Group bytes into big-endian 32-bit words (the first 16 schedule words). -/
def words16 : List Nat → List Nat
  | b0 :: b1 :: b2 :: b3 :: rest => (((b0 * 256 + b1) * 256 + b2) * 256 + b3) :: words16 rest
  | _ => []

/-- Extend a 16-word schedule to 64 words (fuel counts the words still to add). -/
def extendSchedule : Nat → List Nat → List Nat
  | 0, w => w
  | fuel + 1, w =>
    let t := w.length
    let wt := u32 (ssig1 (w.getD (t - 2) 0) + w.getD (t - 7) 0 +
      ssig0 (w.getD (t - 15) 0) + w.getD (t - 16) 0)
    extendSchedule fuel (w ++ [wt])

/-- One SHA-256 round on the 8-word working state. -/
def shaRound (st : List Nat) (kw : Nat × Nat) : List Nat :=
  match st with
  | [a, b, c, d, e, f, g, h] =>
    let t1 := u32 (h + bsig1 e + shaCh e f g + kw.1 + kw.2)
    let t2 := u32 (bsig0 a + shaMaj a b c)
    [u32 (t1 + t2), a, b, c, u32 (d + t1), e, f, g]
  | other => other

/-- SHA-256 compression of a single 64-byte block into the hash state. -/
def compress (st : List Nat) (block : List Nat) : List Nat :=
  let w := extendSchedule 48 (words16 block)
  let st2 := (shaK.zip w).foldl shaRound st
  (st.zip st2).map (fun p => u32 (p.1 + p.2))

/-- Big-endian 8-byte encoding of a 64-bit length field. -/
def be64 (n : Nat) : List Nat :=
  [(n >>> 56) % 256, (n >>> 48) % 256, (n >>> 40) % 256, (n >>> 32) % 256,
   (n >>> 24) % 256, (n >>> 16) % 256, (n >>> 8) % 256, n % 256]

/-- SHA-256 padding: append 0x80, zeros, and the bit length, to a 64-byte multiple. -/
def padMessage (msg : List Nat) : List Nat :=
  let len := msg.length
  let zeros := (119 - len % 64) % 64
  msg ++ 0x80 :: List.replicate zeros 0 ++ be64 (len * 8)

/-- Split a byte list into 64-byte blocks (fuel bounds the number of steps). -/
def chunksGo : Nat → List Nat → List (List Nat)
  | 0, _ => []
  | _, [] => []
  | fuel + 1, l => l.take 64 :: chunksGo fuel (l.drop 64)

/-- Serialize 32-bit words back to big-endian bytes. -/
def wordsToBytes : List Nat → List Nat
  | [] => []
  | w :: rest => (w >>> 24) % 256 :: (w >>> 16) % 256 :: (w >>> 8) % 256 :: w % 256 :: wordsToBytes rest

/-- SHA-256 of a byte string (FIPS 180-4). -/
def sha256 (msg : List Nat) : List Nat :=
  let padded := padMessage msg
  wordsToBytes ((chunksGo padded.length padded).foldl compress shaH0)

/-- Lowercase hex digit for a value below 16. -/
def hexChar (n : Nat) : Char := if n < 10 then Char.ofNat (48 + n) else Char.ofNat (87 + n)

/-- Two lowercase hex digits of one byte. -/
def byteHex (b : Nat) : List Char := [hexChar (b / 16), hexChar (b % 16)]

/-- Lowercase hex encoding of a byte string (Buffer.toString("hex") / digest("hex")). -/
def bytesToHex (bs : List Nat) : String := String.mk ((bs.map byteHex).flatten)

/-- UTF-8 encoding of one character, as Buffer.from(s, "utf8") performs per code point. -/
def charUtf8 (c : Char) : List Nat :=
  let n := c.toNat
  if n < 0x80 then [n]
  else if n < 0x800 then [0xC0 ||| (n >>> 6), 0x80 ||| (n &&& 0x3F)]
  else if n < 0x10000 then
    [0xE0 ||| (n >>> 12), 0x80 ||| ((n >>> 6) &&& 0x3F), 0x80 ||| (n &&& 0x3F)]
  else
    [0xF0 ||| (n >>> 18), 0x80 ||| ((n >>> 12) &&& 0x3F), 0x80 ||| ((n >>> 6) &&& 0x3F),
     0x80 ||| (n &&& 0x3F)]

/-- UTF-8 bytes of a string (the byte view Buffer.from takes of a JS string). -/
def utf8Bytes (s : String) : List Nat := (s.data.map charUtf8).flatten

/-- HMAC-SHA256 (FIPS 198-1) over byte strings. -/
def hmacSha256 (key msg : List Nat) : List Nat :=
  let k0 := if key.length > 64 then sha256 key else key
  let k64 := k0 ++ List.replicate (64 - k0.length) 0
  let inner := sha256 (k64.map (fun b => b ^^^ 0x36) ++ msg)
  sha256 (k64.map (fun b => b ^^^ 0x5c) ++ inner)

/-- Hex HMAC-SHA256 digest of a message string under a secret string, exactly
crypto.createHmac("sha256", secret).update(msg).digest("hex"). -/
def hmacSha256Hex (secret msg : String) : String :=
  bytesToHex (hmacSha256 (utf8Bytes secret) (utf8Bytes msg))

/-! ## JSON values, JSON.stringify, and the body parser

The transport parses the raw request body bytes into a JS value
(express.json()), and the guard re-serializes that value with
JSON.stringify. A small JSON universe of objects, strings and integers
suffices for the webhook payloads at issue. -/

/-- JSON values as relevant to webhook payloads. -/
inductive Json where
  | str (s : String)
  | num (n : Int)
  | obj (fields : List (String × Json))

/-- JSON string escaping of one character (quote and backslash). -/
def escapeJsonChar (c : Char) : List Char :=
  if c = '"' then ['\\', '"'] else if c = '\\' then ['\\', '\\'] else [c]

/-- Quoted JSON string literal. -/
def quoteJsonString (s : String) : String :=
  "\"" ++ String.mk ((s.data.map escapeJsonChar).flatten) ++ "\""

mutual

/-- JSON.stringify: canonical serialization with no added whitespace. -/
def jsonStringify : Json → String
  | Json.str s => quoteJsonString s
  | Json.num n => toString n
  | Json.obj fields => "\x7b" ++ jsonStringifyFields fields ++ "\x7d"

/-- Comma-separated serialization of object members. -/
def jsonStringifyFields : List (String × Json) → String
  | [] => ""
  | [(k, v)] => quoteJsonString k ++ ":" ++ jsonStringify v
  | (k, v) :: rest => quoteJsonString k ++ ":" ++ jsonStringify v ++ "," ++ jsonStringifyFields rest

end

/-- Skip JSON whitespace. -/
def skipWs : List Char → List Char
  | [] => []
  | c :: rest => if c = ' ' || c = '\n' || c = '\t' || c = '\r' then skipWs rest else c :: rest

/-- Parse the remainder of a JSON string literal after the opening quote. -/
def parseStrChars : List Char → Option (List Char × List Char)
  | [] => none
  | '"' :: rest => some ([], rest)
  | '\\' :: c :: rest =>
    if c = '"' || c = '\\' then
      match parseStrChars rest with
      | some (s, r) => some (c :: s, r)
      | none => none
    else none
  | c :: rest =>
    match parseStrChars rest with
    | some (s, r) => some (c :: s, r)
    | none => none

/-- Take a maximal run of decimal digits. -/
def takeDigits : List Char → List Char × List Char
  | [] => ([], [])
  | c :: rest =>
    if c.isDigit then
      let p := takeDigits (rest)
      (c :: p.1, p.2)
    else ([], c :: rest)

/-- Decimal value of a digit run. -/
def digitsToNat (ds : List Char) : Nat :=
  ds.foldl (fun acc c => acc * 10 + (c.toNat - 48)) 0

mutual

/-- Parse one JSON value (fuel bounds the nesting depth). -/
def parseValue : Nat → List Char → Option (Json × List Char)
  | 0, _ => none
  | fuel + 1, cs =>
    match skipWs cs with
    | '"' :: rest =>
      match parseStrChars rest with
      | some (sc, r) => some (Json.str (String.mk sc), r)
      | none => none
    | '-' :: rest =>
      match takeDigits rest with
      | ([], _) => none
      | (ds, r) => some (Json.num (-(Int.ofNat (digitsToNat ds))), r)
    | '\x7b' :: rest =>
      match skipWs rest with
      | '\x7d' :: r => some (Json.obj [], r)
      | _ =>
        match parseMembers fuel rest with
        | some (fs, r) => some (Json.obj fs, r)
        | none => none
    | c :: rest =>
      if c.isDigit then
        match takeDigits (c :: rest) with
        | ([], _) => none
        | (ds, r) => some (Json.num (Int.ofNat (digitsToNat ds)), r)
      else none
    | [] => none

/-- Parse one or more object members up to the closing brace. -/
def parseMembers : Nat → List Char → Option (List (String × Json) × List Char)
  | 0, _ => none
  | fuel + 1, cs =>
    match skipWs cs with
    | '"' :: rest =>
      match parseStrChars rest with
      | some (kc, r1) =>
        match skipWs r1 with
        | ':' :: r3 =>
          match parseValue fuel r3 with
          | some (v, r4) =>
            match skipWs r4 with
            | ',' :: r6 =>
              match parseMembers fuel r6 with
              | some (fs, r7) => some ((String.mk kc, v) :: fs, r7)
              | none => none
            | '\x7d' :: r6 => some ([(String.mk kc, v)], r6)
            | _ => none
          | none => none
        | _ => none
      | none => none
    | _ => none

end

/-- Parse a whole JSON document (express.json() deserialization of the raw bytes). -/
def jsonParse (s : String) : Option Json :=
  match parseValue (s.length + 1) s.data with
  | some (v, rest) => if skipWs rest = [] then some v else none
  | none => none

/-! ## WebhookSignatureGuard (src/common/guards/webhook-signature.guard.ts)

canActivate reads the x-webhook-signature header and request.body (the
value the body parser produced from the raw bytes), re-serializes the
body with JSON.stringify, computes the HMAC-SHA256 hex digest of that
string under the configured secret, and compares with
crypto.timingSafeEqual, which throws a RangeError when the two buffers
have different byte lengths; the catch block converts that throw into an
UnauthorizedException. -/

/-- HTTP-level exceptions the guard can raise. -/
inductive HttpException where
  | unauthorizedException (msg : String)
  | internalError (msg : String)
  deriving Repr, DecidableEq

/-- crypto.timingSafeEqual: errors when byte lengths differ, else byte equality. -/
def timingSafeEqual (a b : List Nat) : Except String Bool :=
  if a.length ≠ b.length then Except.error "RangeError"
  else Except.ok (a == b)

/-- WebhookSignatureGuard.canActivate. The header is none when absent; an
empty-string header is falsy in JS and follows the missing-header path. -/
def canActivate (secret : String) (signatureHeader : Option String) (body : Json) :
    Except HttpException Bool :=
  let rawBody := jsonStringify body
  match signatureHeader with
  | none => Except.error (HttpException.unauthorizedException "Missing webhook signature")
  | some signature =>
    if signature = "" then
      Except.error (HttpException.unauthorizedException "Missing webhook signature")
    else
      let expectedSignature := hmacSha256Hex secret rawBody
      match timingSafeEqual (utf8Bytes signature) (utf8Bytes expectedSignature) with
      | Except.ok true => Except.ok true
      | Except.ok false =>
        Except.error (HttpException.unauthorizedException "Invalid webhook signature")
      | Except.error _ =>
        Except.error (HttpException.unauthorizedException "Invalid webhook signature format")

/-! ## Data model (prisma schema rows) -/

/-- WebhookEvent.status values. -/
inductive WebhookStatus where
  | RECEIVED
  | PROCESSED
  | FAILED
  deriving Repr, DecidableEq

/-- Subscription.status values. -/
inductive SubscriptionStatus where
  | ACTIVE
  | CANCELLED
  deriving Repr, DecidableEq

/-- Payment.status values (this core only writes COMPLETED). -/
inductive PaymentStatus where
  | COMPLETED
  deriving Repr, DecidableEq

/-- The validated webhook payload (WebhookPayloadDto). Optional DTO fields are
Option; amount is an integer in minor currency units; metadata is kept as an
opaque string snapshot. -/
structure WebhookPayload where
  externalPaymentId : String
  eventType : String
  email : Option String
  amount : Int
  currency : String
  planType : String
  paymentMethod : Option String
  provider : Option String
  metadata : Option String
  deriving Repr, DecidableEq

/-- A webhook_events row. The payload column stores the payload snapshot. -/
structure WebhookEvent where
  id : Nat
  external_payment_id : String
  event_type : String
  status : WebhookStatus
  payload : WebhookPayload
  processed_at : Option Nat
  deriving Repr, DecidableEq

/-- A users row. -/
structure User where
  id : Nat
  email : String
  deriving Repr, DecidableEq

/-- A payments row. -/
structure Payment where
  id : Nat
  user_id : Nat
  external_payment_id : String
  amount : Int
  currency : String
  plan_type : String
  payment_method : Option String
  provider : Option String
  status : PaymentStatus
  metadata : Option String
  deriving Repr, DecidableEq

/-- A subscriptions row. expires_at is nullable in the schema (the
subscriptions service guards on it). -/
structure Subscription where
  id : Nat
  user_id : Nat
  plan_type : String
  status : SubscriptionStatus
  started_at : Nat
  expires_at : Option Nat
  updated_at : Nat
  deriving Repr, DecidableEq

/-- The persisted store: one list of rows per table, plus a fresh-id counter
standing for the id generator. -/
structure Db where
  webhookEvents : List WebhookEvent
  users : List User
  payments : List Payment
  subscriptions : List Subscription
  nextId : Nat
  deriving Repr, DecidableEq

/-- Errors crossing service boundaries: Prisma P2002 unique-constraint
violations, NestJS BadRequestException, and injected store failures standing
for any infrastructure fault inside the transaction. -/
inductive DbError where
  | uniqueViolation (constraint : String)
  | badRequest (msg : String)
  | storeFailure (step : String)
  deriving Repr, DecidableEq

/-! ## Store operations (Prisma client calls, with the schema's uniqueness
constraints enforced on create) -/

/-- db.webhookEvent.findUnique on the composite key
(external_payment_id, event_type). -/
def webhookEventFindUnique (db : Db) (externalPaymentId eventType : String) :
    Option WebhookEvent :=
  db.webhookEvents.find? (fun e =>
    e.external_payment_id == externalPaymentId && e.event_type == eventType)

/-- db.webhookEvent.create; raises P2002 when a row with the same composite
key already exists (the store enforces the unique constraint). -/
def webhookEventCreate (db : Db) (externalPaymentId eventType : String)
    (status : WebhookStatus) (payload : WebhookPayload) :
    Except DbError (WebhookEvent × Db) :=
  if (webhookEventFindUnique db externalPaymentId eventType).isSome then
    Except.error (DbError.uniqueViolation "webhook_events(external_payment_id, event_type)")
  else
    let e : WebhookEvent :=
      ⟨db.nextId, externalPaymentId, eventType, status, payload, none⟩
    Except.ok (e, { db with webhookEvents := db.webhookEvents ++ [e], nextId := db.nextId + 1 })

/-- db.webhookEvent.update of status and processed_at by id. -/
def webhookEventUpdate (db : Db) (id : Nat) (status : WebhookStatus)
    (processedAt : Option Nat) : Db :=
  { db with webhookEvents := db.webhookEvents.map (fun e =>
      if e.id == id then { e with status := status, processed_at := processedAt } else e) }

/-- db.user.findUnique by unique email. -/
def userFindUnique (db : Db) (email : String) : Option User :=
  db.users.find? (fun u => u.email == email)

/-- db.user.create; raises P2002 when the email already exists. -/
def userCreate (db : Db) (email : String) : Except DbError (User × Db) :=
  if (userFindUnique db email).isSome then
    Except.error (DbError.uniqueViolation "users(email)")
  else
    let u : User := ⟨db.nextId, email⟩
    Except.ok (u, { db with users := db.users ++ [u], nextId := db.nextId + 1 })

/-- db.payment.findUnique by unique external_payment_id. -/
def paymentFindUnique (db : Db) (externalPaymentId : String) : Option Payment :=
  db.payments.find? (fun q => q.external_payment_id == externalPaymentId)

/-- db.payment.create; raises P2002 when the external_payment_id already
exists. -/
def paymentCreate (db : Db) (userId : Nat) (externalPaymentId : String)
    (amount : Int) (currency planType : String)
    (paymentMethod provider metadata : Option String) :
    Except DbError (Payment × Db) :=
  if (paymentFindUnique db externalPaymentId).isSome then
    Except.error (DbError.uniqueViolation "payments(external_payment_id)")
  else
    let pay : Payment :=
      ⟨db.nextId, userId, externalPaymentId, amount, currency, planType,
        paymentMethod, provider, PaymentStatus.COMPLETED, metadata⟩
    Except.ok (pay, { db with payments := db.payments ++ [pay], nextId := db.nextId + 1 })

/-- db.subscription.findUnique on the composite key (user_id, plan_type). -/
def subscriptionFindUnique (db : Db) (userId : Nat) (planType : String) :
    Option Subscription :=
  db.subscriptions.find? (fun s => s.user_id == userId && s.plan_type == planType)

/-- db.subscription.upsert keyed by (user_id, plan_type): update the row when
one exists, else create it. The create and update column sets are passed as
the two call sites in the source pass them. -/
def subscriptionUpsert (db : Db) (userId : Nat) (planType : String)
    (createStatus : SubscriptionStatus) (createStarted createExpires : Nat)
    (updateStatus : SubscriptionStatus) (updateExpires : Nat)
    (updateUpdated : Option Nat) : Subscription × Db :=
  match subscriptionFindUnique db userId planType with
  | some s =>
    let s2 := { s with
      status := updateStatus
      expires_at := some updateExpires
      updated_at := updateUpdated.getD s.updated_at }
    (s2, { db with subscriptions := db.subscriptions.map (fun t =>
      if t.id == s.id then s2 else t) })
  | none =>
    let s : Subscription :=
      ⟨db.nextId, userId, planType, createStatus, createStarted,
        some createExpires, createStarted⟩
    (s, { db with subscriptions := db.subscriptions ++ [s], nextId := db.nextId + 1 })

/-- Expiry of the (user, plan) subscription row, for stating claims. -/
def subscriptionExpiry (db : Db) (userId : Nat) (planType : String) : Option Nat :=
  (subscriptionFindUnique db userId planType).bind (fun s => s.expires_at)

/-! ## SubscriptionsService (src/subscriptions/subscriptions.service.ts)

activateOrExtendSubscription reads the existing (user, plan) row, computes
the new expiry — from the current expiry when the row is ACTIVE and not yet
expired, else from now — and upserts. The source adds durationDays with
Date.setDate; on the epoch-millisecond clock of this model a day is
24*60*60*1000 ms. -/

/-- SubscriptionsService.activateOrExtendSubscription. -/
def activateOrExtendSubscription (db : Db) (userId : Nat) (planType : String)
    (durationDays : Nat) (now : Nat) : Subscription × Db :=
  let existing := subscriptionFindUnique db userId planType
  let newExpiryDate :=
    match existing with
    | some ex =>
      match ex.expires_at with
      | some exp =>
        if ex.status == SubscriptionStatus.ACTIVE && exp > now then
          exp + durationDays * 24 * 60 * 60 * 1000
        else now + durationDays * 24 * 60 * 60 * 1000
      | none => now + durationDays * 24 * 60 * 60 * 1000
    | none => now + durationDays * 24 * 60 * 60 * 1000
  subscriptionUpsert db userId planType SubscriptionStatus.ACTIVE now newExpiryDate
    SubscriptionStatus.ACTIVE newExpiryDate (some now)

/-! ## PaymentsService (src/payments/payments.service.ts) -/

/-- PaymentsService.findByExternalId. -/
def findByExternalId (db : Db) (externalPaymentId : String) : Option Payment :=
  paymentFindUnique db externalPaymentId

/-- PaymentsService.createPayment: on a P2002 unique-constraint violation it
returns the existing payment (found by external id, possibly null) instead of
failing; other errors are rethrown. -/
def createPayment (db : Db) (userId : Nat) (externalPaymentId : String)
    (amount : Int) (currency planType : String)
    (paymentMethod provider metadata : Option String) :
    Except DbError (Option Payment × Db) :=
  match paymentCreate db userId externalPaymentId amount currency planType
      paymentMethod provider metadata with
  | Except.ok (pay, db2) => Except.ok (some pay, db2)
  | Except.error (DbError.uniqueViolation c) =>
    let _ := c
    Except.ok (findByExternalId db externalPaymentId, db)
  | Except.error e => Except.error e

/-! ## WebhooksService (src/webhooks/webhooks.service.ts) -/

/-- The valid plan types (validateWebhookBusinessLogic). -/
def validPlanTypes : List String := ["monthly", "yearly", "lifetime"]

/-- WebhooksService.getExpectedAmountForPlan: the price table with the
source's fallback of 0 for an unknown plan. -/
def getExpectedAmountForPlan (planType : String) : Int :=
  if planType == "monthly" then 999
  else if planType == "yearly" then 9999
  else if planType == "lifetime" then 29999
  else 0

/-- WebhooksService.getSubscriptionDuration: the duration table in days with
the source's fallback of 30 for an unknown plan. -/
def getSubscriptionDuration (planType : String) : Nat :=
  if planType == "monthly" then 30
  else if planType == "yearly" then 365
  else if planType == "lifetime" then 36500
  else 30

/-- The condition under which validateWebhookBusinessLogic logs an amount
mismatch (it only logs; it does not reject). -/
def amountMismatchLogged (p : WebhookPayload) : Bool :=
  (p.amount - getExpectedAmountForPlan p.planType).natAbs > 100

/-- WebhooksService.validateWebhookBusinessLogic: rejects a non-positive
amount, then an unknown plan type; the amount-mismatch check only logs. -/
def validateWebhookBusinessLogic (p : WebhookPayload) : Except DbError Unit :=
  if p.amount ≤ 0 then Except.error (DbError.badRequest "Amount must be positive")
  else if !(validPlanTypes.contains p.planType) then
    Except.error (DbError.badRequest "Invalid plan type")
  else Except.ok ()

/-- WebhooksService.checkIfAlreadyProcessed: the idempotency lookup on the
composite key. -/
def checkIfAlreadyProcessed (db : Db) (externalPaymentId eventType : String) :
    Option WebhookEvent :=
  webhookEventFindUnique db externalPaymentId eventType

/-- The email actually used by findOrCreateUser: the given one, or the
synthesized placeholder user-<Date.now()>@pending.com when the payload has
none (an empty string is falsy in JS and also takes the placeholder path). -/
def resolveEmail (email : Option String) (now : Nat) : String :=
  match email with
  | none => "user-" ++ Nat.repr now ++ "@pending.com"
  | some e => if e = "" then "user-" ++ Nat.repr now ++ "@pending.com" else e

/-- WebhooksService.findOrCreateUser. -/
def findOrCreateUser (db : Db) (email : Option String) (now : Nat) :
    Except DbError (User × Db) :=
  let email2 := resolveEmail email now
  match userFindUnique db email2 with
  | some u => Except.ok (u, db)
  | none => userCreate db email2

/-- Injected failures for the three steps of the apply transaction, standing
for the store being unavailable at that step. -/
structure TxFaults where
  failPaymentCreate : Bool
  failSubscriptionUpsert : Bool
  failEventUpdate : Bool
  deriving Repr, DecidableEq

/-- The fault-free environment. -/
def noFaults : TxFaults := ⟨false, false, false⟩

/-- The callback body WebhooksService.processPaymentTransaction passes to
db.$transaction: create the payment row, upsert the subscription with expiry
now + durationDays (both create and update branches use
new Date(Date.now() + durationDays * 24 * 60 * 60 * 1000)), and mark the
webhook event PROCESSED. -/
def processPaymentTransactionBody (f : TxFaults) (webhookEventId userId : Nat)
    (p : WebhookPayload) (now : Nat) (db : Db) :
    Except DbError ((Nat × Nat) × Db) :=
  if f.failPaymentCreate then Except.error (DbError.storeFailure "payment.create")
  else
    match paymentCreate db userId p.externalPaymentId p.amount p.currency
        p.planType p.paymentMethod p.provider p.metadata with
    | Except.error e => Except.error e
    | Except.ok (payment, db1) =>
      if f.failSubscriptionUpsert then
        Except.error (DbError.storeFailure "subscription.upsert")
      else
        let durationDays := getSubscriptionDuration p.planType
        let su := subscriptionUpsert db1 userId p.planType
          SubscriptionStatus.ACTIVE now (now + durationDays * 24 * 60 * 60 * 1000)
          SubscriptionStatus.ACTIVE (now + durationDays * 24 * 60 * 60 * 1000) none
        if f.failEventUpdate then
          Except.error (DbError.storeFailure "webhookEvent.update")
        else
          let db3 := webhookEventUpdate su.2 webhookEventId WebhookStatus.PROCESSED (some now)
          Except.ok ((payment.id, su.1.id), db3)

/-- db.$transaction: run the callback; commit its writes on success, revert
them all when it throws (the store's transactional contract). -/
def runTransaction {α : Type} (db : Db) (body : Db → Except DbError (α × Db)) :
    Except DbError α × Db :=
  match body db with
  | Except.ok (a, db2) => (Except.ok a, db2)
  | Except.error e => (Except.error e, db)

/-- WebhooksService.processPaymentTransaction: the transactional apply step. -/
def processPaymentTransaction (f : TxFaults) (db : Db) (webhookEventId userId : Nat)
    (p : WebhookPayload) (now : Nat) : Except DbError (Nat × Nat) × Db :=
  runTransaction db (processPaymentTransactionBody f webhookEventId userId p now)

/-- The service result shape (IWebhookProcessingResult). -/
structure ProcessingResult where
  success : Bool
  isDuplicate : Bool
  paymentId : Option Nat
  subscriptionId : Option Nat
  deriving Repr, DecidableEq

/-- WebhooksService.processWebhook: idempotency check, event creation as
RECEIVED, user resolution, business validation, then the transactional apply
step. Every thrown error is logged and rethrown unchanged; writes performed
before the throw stay durable. -/
def processWebhook (f : TxFaults) (db : Db) (p : WebhookPayload) (now : Nat) :
    Except DbError ProcessingResult × Db :=
  match checkIfAlreadyProcessed db p.externalPaymentId p.eventType with
  | some existingEvent =>
    (Except.ok { success := true, isDuplicate := true,
                 paymentId := some existingEvent.id, subscriptionId := none }, db)
  | none =>
    match webhookEventCreate db p.externalPaymentId p.eventType
        WebhookStatus.RECEIVED p with
    | Except.error e => (Except.error e, db)
    | Except.ok (webhookEvent, db1) =>
      match findOrCreateUser db1 p.email now with
      | Except.error e => (Except.error e, db1)
      | Except.ok (user, db2) =>
        match validateWebhookBusinessLogic p with
        | Except.error e => (Except.error e, db2)
        | Except.ok _ =>
          match processPaymentTransaction f db2 webhookEvent.id user.id p now with
          | (Except.error e, db3) => (Except.error e, db3)
          | (Except.ok r, db3) =>
            (Except.ok { success := true, isDuplicate := false,
                         paymentId := some r.1, subscriptionId := some r.2 }, db3)

/-! ## WebhooksController (src/webhooks/webhooks.controller.ts) -/

/-- The controller's response shape (IWebhookResponse). -/
structure WebhookResponse where
  status : Nat
  message : String
  webhookEventId : Option Nat
  paymentId : Option Nat
  deriving Repr, DecidableEq

/-- WebhooksController.handlePaymentWebhook: always answers 200; for a
duplicate it reports the service's paymentId as webhookEventId; for fresh
processing it reports paymentId; every thrown error is swallowed into a
generic processing-failed acknowledgement. -/
def handlePaymentWebhook (f : TxFaults) (db : Db) (p : WebhookPayload) (now : Nat) :
    WebhookResponse × Db :=
  match processWebhook f db p now with
  | (Except.ok result, db2) =>
    if result.isDuplicate then
      ({ status := 200, message := "Webhook already processed (duplicate)",
         webhookEventId := result.paymentId, paymentId := none }, db2)
    else
      ({ status := 200, message := "Webhook processed successfully",
         webhookEventId := none, paymentId := result.paymentId }, db2)
  | (Except.error _, db2) =>
    ({ status := 200, message := "Webhook received, processing failed (will retry internally)",
       webhookEventId := none, paymentId := none }, db2)

/-! ## Helper lemmas -/

/-- The store transaction leaves the state untouched when its callback throws. -/
theorem runTransaction_error {α : Type} (db : Db) (body : Db → Except DbError (α × Db))
    (e : DbError) (h : (runTransaction db body).1 = Except.error e) :
    (runTransaction db body).2 = db := by
  unfold runTransaction at h ⊢
  cases hb : body db with
  | ok a => simp [hb] at h
  | error e2 => simp [hb]

/-- processWebhook short-circuits to the duplicate result, with no write, as
soon as the composite-key lookup returns a row. -/
theorem processWebhook_duplicate (f : TxFaults) (db : Db) (p : WebhookPayload)
    (now : Nat) (e : WebhookEvent)
    (h : webhookEventFindUnique db p.externalPaymentId p.eventType = some e) :
    processWebhook f db p now =
      (Except.ok { success := true, isDuplicate := true,
                   paymentId := some e.id, subscriptionId := none }, db) := by
  unfold processWebhook checkIfAlreadyProcessed
  rw [h]

/-! ## C1 -/

/-- Milliseconds per day, the unit of the duration arithmetic. -/
def msPerDay : Nat := 24 * 60 * 60 * 1000

/-- A fixed evaluation instant for the concrete scenarios. -/
def c1Now : Nat := 1700000000000

/-- A well-formed monthly renewal payload for user test@example.com. -/
def c1Payload : WebhookPayload :=
  ⟨"pay_1", "payment.success", some "test@example.com", 999, "USD", "monthly",
    none, none, none⟩

/-- A store holding the RECEIVED event of the delivery being applied and an
ACTIVE subscription for (user 1, monthly) that still has 15 days to run. -/
def c1Db : Db :=
  ⟨[⟨2, "pay_1", "payment.success", WebhookStatus.RECEIVED, c1Payload, none⟩],
   [⟨1, "test@example.com"⟩], [],
   [⟨3, 1, "monthly", SubscriptionStatus.ACTIVE, c1Now - 15 * msPerDay,
     some (c1Now + 15 * msPerDay), c1Now - 15 * msPerDay⟩], 4⟩

set_option maxRecDepth 20000 in
/-- C1: refuted on the code. For a webhook reaching the transactional apply
step while an ACTIVE, unexpired subscription row exists for (user, planType),
the upsert inside processPaymentTransaction writes expiry now + 30 days
rather than the claimed existing expiry + 30 days: the remaining 15 days are
dropped. The extension rule the claim describes is implemented only in
SubscriptionsService.activateOrExtendSubscription, which the transactional
apply step does not call. -/
theorem C1_apply_step_drops_remaining_time :
    (subscriptionFindUnique c1Db 1 "monthly").map Subscription.status =
      some SubscriptionStatus.ACTIVE ∧
    subscriptionExpiry c1Db 1 "monthly" = some (c1Now + 15 * msPerDay) ∧
    c1Now < c1Now + 15 * msPerDay ∧
    subscriptionExpiry (processPaymentTransaction noFaults c1Db 2 1 c1Payload c1Now).2
      1 "monthly" = some (c1Now + 30 * msPerDay) ∧
    (activateOrExtendSubscription c1Db 1 "monthly" 30 c1Now).1.expires_at =
      some (c1Now + 15 * msPerDay + 30 * msPerDay) ∧
    c1Now + 30 * msPerDay ≠ c1Now + 15 * msPerDay + 30 * msPerDay := by
  exact ⟨rfl, rfl, by decide, rfl, rfl, by decide⟩

/-! ## C4 -/

/-- The shared webhook secret of the concrete guard scenarios. -/
def c4Secret : String := "test_secret_key_123"

/-- Raw request body bytes as received on the wire: a space after the colon. -/
def c4RawBody : String := "\x7b\"a\": 1\x7d"

/-- The value the body parser produces from those bytes. -/
def c4Body : Json := Json.obj [("a", Json.num 1)]

set_option maxRecDepth 200000 in
/-- C4: refuted on the code. The guard hashes JSON.stringify(request.body),
a re-serialization of the parsed body, not the exact raw bytes: a request
correctly signed over the received bytes is rejected whenever the
re-serialization differs (here, by one space), while a signature over the
re-serialized copy is what actually passes. -/
theorem C4_guard_verifies_reserialized_body_not_raw_bytes :
    jsonParse c4RawBody = some c4Body ∧
    jsonStringify c4Body ≠ c4RawBody ∧
    canActivate c4Secret (some (hmacSha256Hex c4Secret c4RawBody)) c4Body =
      Except.error (HttpException.unauthorizedException "Invalid webhook signature") ∧
    canActivate c4Secret (some (hmacSha256Hex c4Secret (jsonStringify c4Body))) c4Body =
      Except.ok true := by
  exact ⟨rfl, by decide, by rfl, by rfl⟩

/-! ## C5 -/

/-- A second delivery reusing externalPaymentId pay_1 with a fresh event
type, so that it passes the deduplication gate. -/
def c5Payload : WebhookPayload :=
  ⟨"pay_1", "payment.refund", some "test@example.com", 999, "USD", "monthly",
    none, none, none⟩

/-- The payment row that already exists for pay_1. -/
def c5ExistingPayment : Payment :=
  ⟨5, 1, "pay_1", 999, "USD", "monthly", none, none, PaymentStatus.COMPLETED, none⟩

/-- A store in which (pay_1, payment.success) was fully processed, so the
payments table already holds external id pay_1. -/
def c5Db : Db :=
  ⟨[⟨2, "pay_1", "payment.success", WebhookStatus.PROCESSED, c1Payload, some c1Now⟩],
   [⟨1, "test@example.com"⟩], [c5ExistingPayment], [], 6⟩

set_option maxRecDepth 20000 in
/-- C5: refuted on the code. A uniqueness-constraint violation at the payment
create inside processWebhook's transaction propagates out of processWebhook
as a hard error (the catch block rethrows), and the controller reports the
generic processing-failed acknowledgement — not a DuplicateEvent outcome.
The conversion the claim describes exists only in
PaymentsService.createPayment, which resolves P2002 to the existing row, but
processWebhook calls tx.payment.create directly and bypasses it. -/
theorem C5_uniqueness_violation_surfaces_as_hard_error :
    (processWebhook noFaults c5Db c5Payload c1Now).1 =
      Except.error (DbError.uniqueViolation "payments(external_payment_id)") ∧
    (handlePaymentWebhook noFaults c5Db c5Payload c1Now).1 =
      { status := 200, message := "Webhook received, processing failed (will retry internally)",
        webhookEventId := none, paymentId := none } ∧
    createPayment c5Db 1 "pay_1" 999 "USD" "monthly" none none none =
      Except.ok (some c5ExistingPayment, c5Db) := by
  exact ⟨rfl, rfl, rfl⟩

/-! ## C2 -/

/-- C2: the service returns the duplicate outcome exactly when a
webhook_events row already exists for the composite key
(externalPaymentId, eventType) — whatever that row's status — with the
existing row's id as paymentId and the store untouched; a row exists for the
key precisely when some row matches both fields, so the same
externalPaymentId under a different eventType is not a duplicate. -/
theorem C2_duplicate_iff_event_row_exists (f : TxFaults) (db : Db)
    (p : WebhookPayload) (now : Nat) :
    (∀ e, webhookEventFindUnique db p.externalPaymentId p.eventType = some e →
      processWebhook f db p now =
        (Except.ok { success := true, isDuplicate := true,
                     paymentId := some e.id, subscriptionId := none }, db) ∧
      e.external_payment_id = p.externalPaymentId ∧ e.event_type = p.eventType) ∧
    ((∃ e, e ∈ db.webhookEvents ∧ e.external_payment_id = p.externalPaymentId ∧
        e.event_type = p.eventType) ↔
      (webhookEventFindUnique db p.externalPaymentId p.eventType).isSome = true) ∧
    (webhookEventFindUnique db p.externalPaymentId p.eventType = none →
      ∀ r db2, processWebhook f db p now = (Except.ok r, db2) →
        r.isDuplicate = false) := by
  refine ⟨?_, ?_, ?_⟩
  · intro e he
    refine ⟨processWebhook_duplicate f db p now e he, ?_⟩
    have hp := List.find?_some he
    simp only [Bool.and_eq_true, beq_iff_eq] at hp
    exact hp
  · simp only [webhookEventFindUnique, List.find?_isSome, Bool.and_eq_true, beq_iff_eq]
  · intro hnone r db2 hpw
    unfold processWebhook checkIfAlreadyProcessed at hpw
    simp only [hnone] at hpw
    repeat' split at hpw
    all_goals simp at hpw
    rw [← hpw.1]

/-- A processed event row used for the C2 and C10 duplicate scenarios. -/
def c2Event : WebhookEvent :=
  ⟨7, "pay_2", "payment.success", WebhookStatus.PROCESSED, c1Payload, some c1Now⟩

/-- A store already holding that processed row. -/
def c2Db : Db := ⟨[c2Event], [⟨1, "test@example.com"⟩], [], [], 8⟩

/-- A redelivery of the same (pay_2, payment.success) event. -/
def c2Payload : WebhookPayload :=
  ⟨"pay_2", "payment.success", some "test@example.com", 999, "USD", "monthly",
    none, none, none⟩

/-- Witness for C2 at a concrete redelivery: the lookup finds the processed
row and the service answers the duplicate result without writing. -/
theorem C2_duplicate_iff_event_row_exists_witness :
    webhookEventFindUnique c2Db "pay_2" "payment.success" = some c2Event ∧
    processWebhook noFaults c2Db c2Payload c1Now =
      (Except.ok { success := true, isDuplicate := true,
                   paymentId := some 7, subscriptionId := none }, c2Db) := by
  refine ⟨by decide, ?_⟩
  exact ((C2_duplicate_iff_event_row_exists noFaults c2Db c2Payload c1Now).1
    c2Event (by decide)).1

/-! ## C3 -/

/-- C3: the transactional apply step is all-or-nothing. Whenever it results
in an error the store afterwards equals the store before — no payment row,
no subscription change, no status update survives — and in particular a
failing subscription upsert always makes the whole step report an error. -/
theorem C3_transaction_all_or_nothing (f : TxFaults) (db : Db)
    (webhookEventId userId : Nat) (p : WebhookPayload) (now : Nat) :
    (∀ e, (processPaymentTransaction f db webhookEventId userId p now).1 =
        Except.error e →
      (processPaymentTransaction f db webhookEventId userId p now).2 = db) ∧
    (f.failSubscriptionUpsert = true →
      ∃ e, (processPaymentTransaction f db webhookEventId userId p now).1 =
        Except.error e) := by
  constructor
  · intro e he
    exact runTransaction_error db
      (processPaymentTransactionBody f webhookEventId userId p now) e he
  · intro hsub
    unfold processPaymentTransaction runTransaction processPaymentTransactionBody
    cases hpc : f.failPaymentCreate with
    | true => simp [hpc]
    | false =>
      simp only [hpc, Bool.false_eq_true, if_false]
      cases hcr : paymentCreate db userId p.externalPaymentId p.amount p.currency
          p.planType p.paymentMethod p.provider p.metadata with
      | error e => simp
      | ok v => simp [hsub]

/-- Witness for C3: with the subscription-upsert step failing on the C1
store, the apply step errors and every write is rolled back. -/
theorem C3_transaction_all_or_nothing_witness :
    (processPaymentTransaction ⟨false, true, false⟩ c1Db 2 1 c1Payload c1Now).2 =
      c1Db := by
  have h := C3_transaction_all_or_nothing ⟨false, true, false⟩ c1Db 2 1 c1Payload c1Now
  obtain ⟨e, he⟩ := h.2 rfl
  exact h.1 e he

/-! ## C6 -/

/-- C6: the business validator rejects exactly the events with non-positive
amount (reason: amount must be positive) or a plan type outside
{monthly, yearly, lifetime} (reason: invalid plan type); an amount differing
from the plan's expected price by more than 100 minor units only triggers
the logged-mismatch condition and never causes rejection. -/
theorem C6_validator_rejects_iff (p : WebhookPayload) :
    (validateWebhookBusinessLogic p =
        Except.error (DbError.badRequest "Amount must be positive") ↔
      p.amount ≤ 0) ∧
    (validateWebhookBusinessLogic p =
        Except.error (DbError.badRequest "Invalid plan type") ↔
      (0 < p.amount ∧ validPlanTypes.contains p.planType = false)) ∧
    (validateWebhookBusinessLogic p = Except.ok () ↔
      (0 < p.amount ∧ validPlanTypes.contains p.planType = true)) ∧
    (amountMismatchLogged p = true → 0 < p.amount →
      validPlanTypes.contains p.planType = true →
      validateWebhookBusinessLogic p = Except.ok ()) := by
  unfold validateWebhookBusinessLogic
  by_cases ha : p.amount ≤ 0
  · simp [ha]
  · have ha2 : 0 < p.amount := by omega
    cases hc : validPlanTypes.contains p.planType with
    | false => simp [ha, hc, ha2]
    | true => simp [ha, hc, ha2]

/-- Witness for C6: amount 5000 against plan monthly (expected 999) exceeds
the 100-unit tolerance, yet validation accepts. -/
theorem C6_validator_rejects_iff_witness :
    amountMismatchLogged
      ⟨"pay_3", "payment.success", none, 5000, "USD", "monthly", none, none, none⟩ = true ∧
    validateWebhookBusinessLogic
      ⟨"pay_3", "payment.success", none, 5000, "USD", "monthly", none, none, none⟩ =
      Except.ok () := by
  refine ⟨by decide, ?_⟩
  exact (C6_validator_rejects_iff
    ⟨"pay_3", "payment.success", none, 5000, "USD", "monthly", none, none, none⟩).2.2.2
    (by decide) (by decide) (by decide)

/-! ## C7 -/

/-- C7: the guard fails closed. Its outcome is always either acceptance or
an UnauthorizedException through the caller's authentication-failure path —
never an acceptance of a wrong signature and never another escaping
exception. A missing header rejects; acceptance forces the claimed
signature's bytes to equal the expected digest's; a claimed signature whose
byte length differs from the expected hex digest's is rejected through the
caught-RangeError path. -/
theorem C7_signature_guard_fails_closed (secret : String) (sigHeader : Option String)
    (body : Json) :
    ((∃ m, canActivate secret sigHeader body =
        Except.error (HttpException.unauthorizedException m)) ∨
      canActivate secret sigHeader body = Except.ok true) ∧
    (canActivate secret sigHeader body = Except.ok true →
      ∃ s, sigHeader = some s ∧
        utf8Bytes s = utf8Bytes (hmacSha256Hex secret (jsonStringify body))) ∧
    (sigHeader = none →
      canActivate secret sigHeader body =
        Except.error (HttpException.unauthorizedException "Missing webhook signature")) ∧
    (∀ s, sigHeader = some s → s ≠ "" →
      (utf8Bytes s).length ≠
        (utf8Bytes (hmacSha256Hex secret (jsonStringify body))).length →
      canActivate secret sigHeader body =
        Except.error
          (HttpException.unauthorizedException "Invalid webhook signature format")) := by
  cases sigHeader with
  | none =>
    refine ⟨Or.inl ⟨"Missing webhook signature", rfl⟩, ?_, fun _ => rfl, ?_⟩
    · intro h
      simp [canActivate] at h
    · intro s hs
      simp at hs
  | some s =>
    by_cases hs : s = ""
    · subst hs
      refine ⟨Or.inl ⟨"Missing webhook signature", by simp [canActivate]⟩, ?_, ?_, ?_⟩
      · intro h
        simp [canActivate] at h
      · intro h
        simp at h
      · intro t ht hne _
        exact absurd (by injection ht with h; exact h.symm) hne
    · by_cases hlen : (utf8Bytes s).length =
          (utf8Bytes (hmacSha256Hex secret (jsonStringify body))).length
      · cases hab : utf8Bytes s == utf8Bytes (hmacSha256Hex secret (jsonStringify body)) with
        | true =>
          have hca : canActivate secret (some s) body = Except.ok true := by
            simp [canActivate, timingSafeEqual, hs, hlen, hab]
          refine ⟨Or.inr hca, fun _ => ⟨s, rfl, by simpa using hab⟩, ?_, ?_⟩
          · intro h; exact absurd h (by simp)
          · intro t ht hne hlent
            injection ht with ht; subst ht
            exact absurd hlen hlent
        | false =>
          have hca : canActivate secret (some s) body =
              Except.error (HttpException.unauthorizedException "Invalid webhook signature") := by
            simp [canActivate, timingSafeEqual, hs, hlen, hab]
          refine ⟨Or.inl ⟨_, hca⟩, ?_, ?_, ?_⟩
          · intro h; rw [hca] at h; exact absurd h (by simp)
          · intro h; exact absurd h (by simp)
          · intro t ht hne hlent
            injection ht with ht; subst ht
            exact absurd hlen hlent
      · have hca : canActivate secret (some s) body =
            Except.error
              (HttpException.unauthorizedException "Invalid webhook signature format") := by
          simp [canActivate, timingSafeEqual, hs, hlen]
        refine ⟨Or.inl ⟨_, hca⟩, ?_, ?_, ?_⟩
        · intro h; rw [hca] at h; exact absurd h (by simp)
        · intro h; exact absurd h (by simp)
        · intro t ht hne hlent
          exact hca

set_option maxRecDepth 400000 in
/-- Witness for C7: the 5-byte claimed signature "short" differs in length
from the 64-byte expected hex digest and is rejected as an
UnauthorizedException through the caught-RangeError path. -/
theorem C7_signature_guard_fails_closed_witness :
    canActivate "test_secret_key_123" (some "short") (Json.obj [("test", Json.str "data")]) =
      Except.error
        (HttpException.unauthorizedException "Invalid webhook signature format") := by
  exact (C7_signature_guard_fails_closed "test_secret_key_123" (some "short")
    (Json.obj [("test", Json.str "data")])).2.2.2 "short" rfl (by decide) (by decide)

/-! ## C10 -/

/-- C10: for a duplicate delivery the service result carries the existing
WebhookEvent row's id in its paymentId field and no subscriptionId, and the
controller reports exactly that value back as webhookEventId. -/
theorem C10_duplicate_reports_event_id (f : TxFaults) (db : Db) (p : WebhookPayload)
    (now : Nat) (e : WebhookEvent)
    (h : webhookEventFindUnique db p.externalPaymentId p.eventType = some e) :
    processWebhook f db p now =
      (Except.ok { success := true, isDuplicate := true,
                   paymentId := some e.id, subscriptionId := none }, db) ∧
    e ∈ db.webhookEvents ∧
    handlePaymentWebhook f db p now =
      ({ status := 200, message := "Webhook already processed (duplicate)",
         webhookEventId := some e.id, paymentId := none }, db) := by
  have hp := processWebhook_duplicate f db p now e h
  refine ⟨hp, List.mem_of_find?_eq_some h, ?_⟩
  unfold handlePaymentWebhook
  rw [hp]
  rfl

/-- Witness for C10 at the concrete duplicate scenario: the controller
answers with webhookEventId 7, the stored event row's id, and no
paymentId. -/
theorem C10_duplicate_reports_event_id_witness :
    webhookEventFindUnique c2Db "pay_2" "payment.success" = some c2Event ∧
    handlePaymentWebhook noFaults c2Db c2Payload c1Now =
      ({ status := 200, message := "Webhook already processed (duplicate)",
         webhookEventId := some 7, paymentId := none }, c2Db) := by
  refine ⟨by decide, ?_⟩
  exact (C10_duplicate_reports_event_id noFaults c2Db c2Payload c1Now c2Event
    (by decide)).2.2

/-! ## Frame lemmas for the users table -/

/-- A successful payment create does not touch the users table. -/
theorem paymentCreate_users {db : Db} {u : Nat} {ext : String} {a : Int}
    {cur pt : String} {pm pr md : Option String} {pay : Payment} {db1 : Db}
    (h : paymentCreate db u ext a cur pt pm pr md = Except.ok (pay, db1)) :
    db1.users = db.users := by
  unfold paymentCreate at h
  split at h
  · simp at h
  · simp only [Except.ok.injEq, Prod.mk.injEq] at h
    rw [← h.2]

/-- The subscription upsert does not touch the users table. -/
theorem subscriptionUpsert_users (db : Db) (uid : Nat) (pt : String)
    (cs : SubscriptionStatus) (cst cexp : Nat) (us : SubscriptionStatus)
    (uexp : Nat) (uupd : Option Nat) :
    (subscriptionUpsert db uid pt cs cst cexp us uexp uupd).2.users = db.users := by
  unfold subscriptionUpsert
  split <;> rfl

/-- The event status update does not touch the users table. -/
theorem webhookEventUpdate_users (db : Db) (id : Nat) (st : WebhookStatus)
    (pa : Option Nat) : (webhookEventUpdate db id st pa).users = db.users := rfl

/-- A committing transaction callback leaves the users table unchanged. -/
theorem processPaymentTransactionBody_users {f : TxFaults} {evId uid : Nat}
    {p : WebhookPayload} {now : Nat} {db : Db} {v : (Nat × Nat) × Db}
    (h : processPaymentTransactionBody f evId uid p now db = Except.ok v) :
    v.2.users = db.users := by
  unfold processPaymentTransactionBody at h
  split at h
  · simp at h
  · split at h
    · simp at h
    · rename_i payment db1 heq
      split at h
      · simp at h
      · split at h
        · simp at h
        · simp only [Except.ok.injEq] at h
          rw [← h]
          rw [webhookEventUpdate_users, subscriptionUpsert_users]
          exact paymentCreate_users heq

/-- The transactional apply step never changes the users table, commit or
rollback. -/
theorem processPaymentTransaction_users (f : TxFaults) (db : Db) (evId uid : Nat)
    (p : WebhookPayload) (now : Nat) :
    (processPaymentTransaction f db evId uid p now).2.users = db.users := by
  unfold processPaymentTransaction runTransaction
  cases hb : processPaymentTransactionBody f evId uid p now db with
  | error e => rfl
  | ok v => exact processPaymentTransactionBody_users hb

/-- findOrCreateUser returns a user carrying the resolved email, present in
the resulting store, and touches nothing but the users table, which it only
extends. -/
theorem findOrCreateUser_spec (db : Db) (email : Option String) (now : Nat) :
    ∃ u db2, findOrCreateUser db email now = Except.ok (u, db2) ∧
      u ∈ db2.users ∧ u.email = resolveEmail email now ∧
      db2.webhookEvents = db.webhookEvents ∧ db2.payments = db.payments ∧
      db2.subscriptions = db.subscriptions := by
  cases hfu : userFindUnique db (resolveEmail email now) with
  | some u =>
    have hres : findOrCreateUser db email now = Except.ok (u, db) := by
      unfold findOrCreateUser
      simp only [hfu]
    refine ⟨u, db, hres, List.mem_of_find?_eq_some hfu, ?_, rfl, rfl, rfl⟩
    have hp := List.find?_some hfu
    simpa using hp
  | none =>
    have hres : findOrCreateUser db email now =
        Except.ok (⟨db.nextId, resolveEmail email now⟩,
          { db with users := db.users ++ [⟨db.nextId, resolveEmail email now⟩],
                    nextId := db.nextId + 1 }) := by
      unfold findOrCreateUser userCreate
      simp only [hfu, Option.isSome_none, Bool.false_eq_true, if_false]
    exact ⟨⟨db.nextId, resolveEmail email now⟩, _, hres, by simp, rfl, rfl, rfl, rfl⟩

/-! ## C9 -/

/-- C9: user resolution runs outside the apply transaction. For every
delivery that passes the deduplication gate, a user row with the resolved
(real or placeholder) email is present in the resulting store whatever the
outcome — also when validation rejects the event or the apply transaction
rolls back — so a failed webhook durably adds its user. -/
theorem C9_user_persists_outside_transaction (f : TxFaults) (db : Db)
    (p : WebhookPayload) (now : Nat)
    (hnone : webhookEventFindUnique db p.externalPaymentId p.eventType = none) :
    ∃ u, u ∈ (processWebhook f db p now).2.users ∧
      u.email = resolveEmail p.email now := by
  unfold processWebhook checkIfAlreadyProcessed webhookEventCreate
  simp only [hnone, Option.isSome_none, Bool.false_eq_true, if_false]
  obtain ⟨u, db2, hfu, hmem, hemail, -, -, -⟩ :=
    findOrCreateUser_spec
      { db with
        webhookEvents := db.webhookEvents ++
          [⟨db.nextId, p.externalPaymentId, p.eventType, WebhookStatus.RECEIVED, p, none⟩],
        nextId := db.nextId + 1 } p.email now
  simp only [hfu]
  cases hv : validateWebhookBusinessLogic p with
  | error e =>
    simp only [hv]
    exact ⟨u, hmem, hemail⟩
  | ok a =>
    simp only [hv]
    cases ht : processPaymentTransaction f db2 db.nextId u.id p now with
    | mk t1 db3 =>
      have husers : db3.users = db2.users := by
        have h2 := processPaymentTransaction_users f db2 db.nextId u.id p now
        rw [ht] at h2
        exact h2
      cases t1 with
      | error e =>
        simp only [ht]
        exact ⟨u, husers ▸ hmem, hemail⟩
      | ok r =>
        simp only [ht]
        exact ⟨u, husers ▸ hmem, hemail⟩

/-- A fresh store and a payload with amount 0 for the C9 witness. -/
def c9Db : Db := ⟨[], [], [], [], 1⟩

/-- An invalid (zero-amount) payload carrying an email. -/
def c9Payload : WebhookPayload :=
  ⟨"pay_4", "payment.success", some "x@y.com", 0, "USD", "monthly", none, none, none⟩

/-- Witness for C9: the zero-amount event is rejected by validation, yet the
user row x@y.com has durably appeared. -/
theorem C9_user_persists_outside_transaction_witness :
    (processWebhook noFaults c9Db c9Payload c1Now).1 =
      Except.error (DbError.badRequest "Amount must be positive") ∧
    ∃ u, u ∈ (processWebhook noFaults c9Db c9Payload c1Now).2.users ∧
      u.email = resolveEmail c9Payload.email c1Now := by
  refine ⟨rfl, ?_⟩
  exact C9_user_persists_outside_transaction noFaults c9Db c9Payload c1Now (by decide)

/-! ## Decimal-digit facts about Nat.repr, for the placeholder email shape -/

/-- Nat.digitChar yields a decimal digit character for values below 10. -/
theorem digitChar_isDigit (m : Nat) (h : m < 10) : (Nat.digitChar m).isDigit = true := by
  interval_cases m <;> decide

/-- Every character Nat.toDigitsCore emits in base 10 is a decimal digit. -/
theorem toDigitsCore_digits (fuel : Nat) :
    ∀ (n : Nat) (acc : List Char), (∀ c ∈ acc, c.isDigit = true) →
      ∀ c ∈ Nat.toDigitsCore 10 fuel n acc, c.isDigit = true := by
  induction fuel with
  | zero =>
    intro n acc hacc c hc
    exact hacc c hc
  | succ fuel ih =>
    intro n acc hacc c hc
    have hd : ∀ c2 ∈ Nat.digitChar (n % 10) :: acc, c2.isDigit = true := by
      intro c2 hc2
      rcases List.mem_cons.mp hc2 with h1 | h1
      · subst h1
        exact digitChar_isDigit _ (Nat.mod_lt _ (by omega))
      · exact hacc c2 h1
    unfold Nat.toDigitsCore at hc
    simp only at hc
    split at hc
    · exact hd c hc
    · exact ih _ _ hd c hc

/-- Nat.toDigitsCore in base 10 with positive fuel returns a nonempty list. -/
theorem toDigitsCore_ne_nil (fuel : Nat) :
    ∀ (n : Nat) (acc : List Char), Nat.toDigitsCore 10 (fuel + 1) n acc ≠ [] := by
  induction fuel with
  | zero =>
    intro n acc
    unfold Nat.toDigitsCore
    simp only
    split <;> simp [Nat.toDigitsCore]
  | succ fuel ih =>
    intro n acc
    unfold Nat.toDigitsCore
    simp only
    split
    · simp
    · exact ih _ _

/-- The decimal representation of a Nat is nonempty and all digits. -/
theorem natRepr_digits (n : Nat) :
    (Nat.repr n).data ≠ [] ∧ (Nat.repr n).data.all Char.isDigit = true := by
  have hdata : (Nat.repr n).data = Nat.toDigits 10 n := rfl
  constructor
  · rw [hdata]
    exact toDigitsCore_ne_nil n n []
  · rw [hdata, List.all_eq_true]
    intro c hc
    exact toDigitsCore_digits (n + 1) n [] (by simp) c hc

/-- String concatenation concatenates the underlying character lists. -/
theorem stringDataAppend (a b : String) : (a ++ b).data = a.data ++ b.data := by
  cases a
  cases b
  rfl

/-! ## C8 -/

/-- Under no injected faults and a fresh external payment id, the
transactional apply step commits and leaves the users table unchanged. -/
theorem processPaymentTransaction_noFaults_ok (db : Db) (evId uid : Nat)
    (p : WebhookPayload) (now : Nat)
    (hpay : paymentFindUnique db p.externalPaymentId = none) :
    ∃ pid sid db3,
      processPaymentTransaction noFaults db evId uid p now =
        (Except.ok (pid, sid), db3) ∧ db3.users = db.users := by
  unfold processPaymentTransaction runTransaction processPaymentTransactionBody paymentCreate
  simp only [noFaults, hpay, Option.isSome_none, Bool.false_eq_true, if_false]
  refine ⟨_, _, _, rfl, ?_⟩
  rw [webhookEventUpdate_users, subscriptionUpsert_users]

/-- C8: for every delivery without an email that passes the deduplication
gate and validation and applies cleanly, identity resolution synthesizes the
placeholder email user-<Date.now()>@pending.com — which matches
user-<digits>@pending.com — a user row with that email is in the resulting
store, and processing completes successfully. -/
theorem C8_missing_email_placeholder (db : Db) (p : WebhookPayload) (now : Nat)
    (hmail : p.email = none)
    (hnone : webhookEventFindUnique db p.externalPaymentId p.eventType = none)
    (hpay : paymentFindUnique db p.externalPaymentId = none)
    (hamount : 0 < p.amount)
    (hplan : validPlanTypes.contains p.planType = true) :
    ∃ r db2, processWebhook noFaults db p now = (Except.ok r, db2) ∧
      r.success = true ∧ r.isDuplicate = false ∧
      ∃ u, u ∈ db2.users ∧
        u.email = "user-" ++ Nat.repr now ++ "@pending.com" ∧
        ∃ ds : List Char, ds ≠ [] ∧ ds.all Char.isDigit = true ∧
          u.email.data = ("user-".data ++ ds) ++ "@pending.com".data := by
  unfold processWebhook checkIfAlreadyProcessed webhookEventCreate
  simp only [hnone, Option.isSome_none, Bool.false_eq_true, if_false]
  obtain ⟨u, db2, hfu, hmem, hemail, hev, hpays, hsubs⟩ :=
    findOrCreateUser_spec
      { db with
        webhookEvents := db.webhookEvents ++
          [⟨db.nextId, p.externalPaymentId, p.eventType, WebhookStatus.RECEIVED, p, none⟩],
        nextId := db.nextId + 1 } p.email now
  simp only [hfu]
  have hval : validateWebhookBusinessLogic p = Except.ok () := by
    unfold validateWebhookBusinessLogic
    rw [if_neg (by omega), hplan]
    rfl
  simp only [hval]
  have hpay2 : paymentFindUnique db2 p.externalPaymentId = none := by
    unfold paymentFindUnique
    rw [hpays]
    exact hpay
  obtain ⟨pid, sid, db3, htx, hus3⟩ :=
    processPaymentTransaction_noFaults_ok db2 db.nextId u.id p now hpay2
  simp only [htx]
  have hplaceholder : u.email = "user-" ++ Nat.repr now ++ "@pending.com" := by
    rw [hemail, hmail]
    rfl
  refine ⟨_, db3, rfl, rfl, rfl, u, hus3 ▸ hmem, hplaceholder, ?_⟩
  obtain ⟨hne, hall⟩ := natRepr_digits now
  refine ⟨(Nat.repr now).data, hne, hall, ?_⟩
  rw [hplaceholder, stringDataAppend, stringDataAppend]

/-- A fresh empty store for the C8 witness. -/
def c8Db : Db := ⟨[], [], [], [], 1⟩

/-- A valid monthly payload delivered without an email field. -/
def c8Payload : WebhookPayload :=
  ⟨"pay_5", "payment.success", none, 999, "USD", "monthly", none, none, none⟩

/-- Witness for C8 at a concrete no-email delivery into an empty store. -/
theorem C8_missing_email_placeholder_witness :
    c8Payload.email = none ∧
    ∃ r db2, processWebhook noFaults c8Db c8Payload c1Now = (Except.ok r, db2) ∧
      r.success = true ∧ r.isDuplicate = false ∧
      ∃ u, u ∈ db2.users ∧
        u.email = "user-" ++ Nat.repr c1Now ++ "@pending.com" ∧
        ∃ ds : List Char, ds ≠ [] ∧ ds.all Char.isDigit = true ∧
          u.email.data = ("user-".data ++ ds) ++ "@pending.com".data := by
  exact ⟨rfl, C8_missing_email_placeholder c8Db c8Payload c1Now rfl (by decide)
    (by decide) (by decide) (by decide)⟩

end WebhookSpec
